import Mathlib

/-!
Verification of the session and request layer of the discord-server repository.

The embedding models, from the TypeScript source:
- the JSON-ish argument payloads and the zod schemas that validate them,
- the Discord client cache (guilds, channels, messages, reactions),
- the channel resolver `getChannelByName` (both the `src/index.ts` variant
  and the `part_001` draft variant),
- the read pipeline (fetch-limit computation, reaction filter, unread
  filter, slice, reverse, render),
- the CallTool dispatcher of `src/index.ts` (five tools) with an effect
  log recording platform calls,
- the `part_001` session layer: `ensureConnected` single-flight entry,
  the send path with its pending-message queue, and
  `flushPendingMessages`.

Machine timestamps are modelled as naturals standing for the ISO-8601
instant (ISO strings order exactly as the instants do).  JavaScript
string truthiness (empty string is falsy) is modelled explicitly.
-/

namespace DiscordServer

instance {ε α : Type} [DecidableEq ε] [DecidableEq α] : DecidableEq (Except ε α) := fun a b =>
  match a, b with
  | .ok x, .ok y =>
    if h : x = y then .isTrue (by rw [h]) else .isFalse (fun hh => h (Except.ok.inj hh))
  | .error x, .error y =>
    if h : x = y then .isTrue (by rw [h]) else .isFalse (fun hh => h (Except.error.inj hh))
  | .ok _, .error _ => .isFalse (fun hh => Except.noConfusion hh)
  | .error _, .ok _ => .isFalse (fun hh => Except.noConfusion hh)

/-- A JSON-ish argument value, as delivered in a ToolRequest payload. -/
inductive JVal where
  | str (s : String)
  | num (n : Int)
  | bool (b : Bool)
deriving DecidableEq

/-- An untyped argument mapping, as `request.params.arguments`. -/
def JObj := List (String × JVal)

instance : DecidableEq JObj := by
  unfold JObj
  infer_instance

/-- First-match key lookup in an argument object. -/
def jlookup (o : JObj) (k : String) : Option JVal :=
  (List.find? (fun p => p.1 == k) o).map (fun p => p.2)

/-- zod: required string field. -/
def getStr (o : JObj) (k : String) : Except String String :=
  match jlookup o k with
  | some (.str s) => .ok s
  | some _ => .error (k ++ ": Expected string")
  | none => .error (k ++ ": Required")

/-- zod: optional string field (no default). -/
def getOptStr (o : JObj) (k : String) : Except String (Option String) :=
  match jlookup o k with
  | some (.str s) => .ok (some s)
  | some _ => .error (k ++ ": Expected string")
  | none => .ok none

/-- zod: optional number field with a default. -/
def getNumD (o : JObj) (k : String) (d : Int) : Except String Int :=
  match jlookup o k with
  | some (.num n) => .ok n
  | some _ => .error (k ++ ": Expected number")
  | none => .ok d

/-- zod: optional boolean field with a default. -/
def getBoolD (o : JObj) (k : String) (d : Bool) : Except String Bool :=
  match jlookup o k with
  | some (.bool b) => .ok b
  | some _ => .error (k ++ ": Expected boolean")
  | none => .ok d

/-- The issues contributed by the parse result of one field. -/
def errsOf {α : Type} : Except String α → List String
  | .error e => [e]
  | .ok _ => []

/-- Validated arguments of `read_recent_messages` (ReadMessagesSchema). -/
structure ReadArgs where
  channel_name : String
  limit : Int
  unread_only : Bool
  reaction_filter : Option String
deriving DecidableEq

/-- ReadMessagesSchema.parse: channel_name required, limit defaults to 10,
unread_only defaults to false, reaction_filter optional. -/
def parseReadArgs (o : JObj) : Except (List String) ReadArgs :=
  match getStr o "channel_name", getNumD o "limit" 10,
      getBoolD o "unread_only" false, getOptStr o "reaction_filter" with
  | .ok cn, .ok l, .ok u, .ok rf => .ok ⟨cn, l, u, rf⟩
  | c, l, u, r => .error (errsOf c ++ errsOf l ++ errsOf u ++ errsOf r)

/-- Validated arguments of `send_message` in src/index.ts (no project_name). -/
structure SendArgsIx where
  channel_name : String
  content : String
deriving DecidableEq

/-- SendMessageSchema.parse of src/index.ts. -/
def parseSendArgsIx (o : JObj) : Except (List String) SendArgsIx :=
  match getStr o "channel_name", getStr o "content" with
  | .ok cn, .ok ct => .ok ⟨cn, ct⟩
  | c, ct => .error (errsOf c ++ errsOf ct)

/-- Validated arguments of `send_message` in part_001 (optional project_name). -/
structure SendArgsP1 where
  channel_name : String
  content : String
  project_name : Option String
deriving DecidableEq

/-- SendMessageSchema.parse of part_001. -/
def parseSendArgsP1 (o : JObj) : Except (List String) SendArgsP1 :=
  match getStr o "channel_name", getStr o "content", getOptStr o "project_name" with
  | .ok cn, .ok ct, .ok pn => .ok ⟨cn, ct, pn⟩
  | c, ct, pn => .error (errsOf c ++ errsOf ct ++ errsOf pn)

/-- Validated arguments of add_reaction / remove_reaction (ReactionSchema);
emoji defaults to "✅". -/
structure ReactionArgs where
  channel_name : String
  message_id : String
  emoji : String
deriving DecidableEq

/-- ReactionSchema.parse. -/
def parseReactionArgs (o : JObj) : Except (List String) ReactionArgs :=
  match getStr o "channel_name", getStr o "message_id", jlookup o "emoji" with
  | .ok cn, .ok mid, none => .ok ⟨cn, mid, "✅"⟩
  | .ok cn, .ok mid, some (.str e) => .ok ⟨cn, mid, e⟩
  | c, mid, some (.str _) => .error (errsOf c ++ errsOf mid)
  | c, mid, none => .error (errsOf c ++ errsOf mid)
  | c, mid, some _ => .error (errsOf c ++ errsOf mid ++ ["emoji: Expected string"])

/-- Validated arguments of delete_message (DeleteMessageSchema). -/
structure DeleteArgs where
  channel_name : String
  message_id : String
deriving DecidableEq

/-- DeleteMessageSchema.parse. -/
def parseDeleteArgs (o : JObj) : Except (List String) DeleteArgs :=
  match getStr o "channel_name", getStr o "message_id" with
  | .ok cn, .ok mid => .ok ⟨cn, mid⟩
  | c, mid => .error (errsOf c ++ errsOf mid)

/-- A reaction entry in the reaction cache of a message: the emoji name and
whether the bot itself is among the reactors (`r.me`). -/
structure Reaction where
  name : String
  me : Bool
deriving DecidableEq

/-- A fetched message record: id, creation instant (stands for the ISO-8601
timestamp), author username, raw content, reaction cache, attachment urls. -/
structure Msg where
  id : String
  createdAt : Nat
  author : String
  content : String
  reactions : List Reaction
  attachments : List String
deriving DecidableEq

/-- A cached channel: name, text-capability, and its message store in the
order `messages.fetch` delivers (newest first). -/
structure Channel where
  name : String
  textBased : Bool
  messages : List Msg
deriving DecidableEq

/-- A joined guild with its channel cache. -/
structure Guild where
  channels : List Channel
deriving DecidableEq

/-- The MCP error codes the dispatcher uses. -/
inductive McpErrorCode where
  | internalError
  | invalidParams
  | methodNotFound
deriving DecidableEq

/-- A thrown value escaping the dispatcher: either an McpError with a code,
or an ordinary platform / transport Error carrying only a message. -/
inductive ThrownError where
  | mcp (code : McpErrorCode) (message : String)
  | ex (message : String)
deriving DecidableEq

/-- The `error.message` seen by catch blocks (McpError messages are
prefixed by the SDK with the numeric code). -/
def errMessage : ThrownError → String
  | .mcp .internalError m => "MCP error -32603: " ++ m
  | .mcp .invalidParams m => "MCP error -32602: " ++ m
  | .mcp .methodNotFound m => "MCP error -32601: " ++ m
  | .ex m => m

/-- One response content item (always of type "text" here). -/
structure Content where
  ctype : String
  text : String
deriving DecidableEq

/-- A CallTool response payload. -/
structure Response where
  content : List Content
deriving DecidableEq

/-- The single-text-block response shape every tool result uses. -/
def mkText (t : String) : Response := ⟨[⟨"text", t⟩]⟩

/-- JavaScript truthiness of an optional string: undefined and "" are falsy. -/
def jsTruthy : Option String → Bool
  | some s => !s.isEmpty
  | none => false

/-- The first guild channel matching `c.name === name && c.isTextBased()`,
scanning guilds in cache order. -/
def findChannel (guilds : List Guild) (name : String) : Option Channel :=
  guilds.findSome? (fun g => g.channels.find? (fun c => c.name == name && c.textBased))

-- =========================================================================
-- Read pipeline (identical in part_001 lines 283-303 and index.ts 185-221)
-- =========================================================================

/-- `(unread_only || reaction_filter) ? Math.min(limit * 3, 100) : Math.min(limit, 50)`. -/
def readFetchLimit (a : ReadArgs) : Int :=
  if a.unread_only || jsTruthy a.reaction_filter then min (a.limit * 3) 100
  else min a.limit 50

/-- JavaScript `Array.prototype.slice(0, n)` (negative n counts from the end). -/
def sliceTo {α : Type} (l : List α) (n : Int) : List α :=
  l.take (if n < 0 then ((l.length : Int) + n).toNat else n.toNat)

/-- `m.reactions.cache.find(r => r.emoji.name === "✅" && r.me)`. -/
def ownCheck (m : Msg) : Option Reaction :=
  m.reactions.find? (fun r => r.name == "✅" && r.me)

/-- The two post-fetch filters, in source order: reaction_filter first
(`.some(r => r.emoji.name === reaction_filter)`), then unread_only
(keep messages whose own-✅ lookup comes back empty). -/
def readFiltered (a : ReadArgs) (fetched : List Msg) : List Msg :=
  let f1 := if jsTruthy a.reaction_filter then
      fetched.filter (fun m => m.reactions.any (fun r => r.name == a.reaction_filter.getD ""))
    else fetched
  if a.unread_only then f1.filter (fun m => (ownCheck m).isNone) else f1

/-- The messages surviving fetch, filtering and `slice(0, limit)`, still in
platform (newest-first) order. -/
def readSelected (msgs : List Msg) (a : ReadArgs) : List Msg :=
  sliceTo (readFiltered a (msgs.take (readFetchLimit a).toNat)) a.limit

/-- Substring test used by the catch clause via
`error.message.includes("Token") || error.message.includes("Auth")`. -/
def strContains (s pat : String) : Bool :=
  decide (pat.toList <:+: s.toList)

/-- The outer catch: a ZodError becomes
`McpError(InvalidParams, "Invalid arguments: " + joined messages)`. -/
def zodCatch (es : List String) : ThrownError :=
  .mcp .invalidParams ("Invalid arguments: " ++ String.intercalate ", " es)

namespace Part001

/-- A queued outbound message, part_001 line 131. -/
structure PendingMessage where
  channel_name : String
  content : String
deriving DecidableEq

/-- The mutable server instance state touched by the send path:
the `ready` flag and the pending-message queue. -/
structure SrvState where
  ready : Bool
  pendingMessages : List PendingMessage
deriving DecidableEq

/-- The environment one request runs against: the outcome a fresh login
attempt would have (`none` for success, `some e` for the error message of
a login failure or of the 15 s timeout), the guild cache, and the
outcomes of the fallible platform calls (`none` for success). -/
structure World where
  loginResult : Option String
  guilds : List Guild
  sendErr : Option String
  reactErr : Option String
deriving DecidableEq

/-- part_001 getChannelByName (lines 212-227): InternalError when not
ready, otherwise first matching text channel, else InvalidParams naming
the channel. -/
def getChannelByName (ready : Bool) (guilds : List Guild) (name : String) :
    Except ThrownError Channel :=
  if !ready then .error (.mcp .internalError "Discord client is not ready.")
  else
    match findChannel guilds name with
    | some c => .ok c
    | none => .error (.mcp .invalidParams ("Channel #" ++ name ++ " not found."))

/-- part_001 render of one read line (lines 298-303). -/
def renderLine (m : Msg) : String :=
  let time := toString m.createdAt
  let isRead := if (ownCheck m).isSome then "[READ]" else "[NEW]"
  "ID:" ++ m.id ++ " " ++ isRead ++ " [" ++ time ++ "] " ++ m.author ++ ": " ++ m.content

/-- The rendered lines, in output order: map then `.reverse()`. -/
def readLines (msgs : List Msg) (a : ReadArgs) : List String :=
  ((readSelected msgs a).map renderLine).reverse

/-- `formatted or the literal no-messages sentinel` after joining with newlines. -/
def readText (msgs : List Msg) (a : ReadArgs) : String :=
  let j := String.intercalate "\n" (readLines msgs a)
  if j.isEmpty then "No messages found." else j

-- =========================================================================
-- ensureConnected (part_001 lines 379-428): single-flight model
-- =========================================================================

/-- The session-manager fields `ready`, `loggingIn`, `loginPromise`
(identified by an attempt id) plus instrumentation: how many platform
`client.login` calls have been issued, and a fresh-attempt counter. -/
structure LoginState where
  ready : Bool
  loggingIn : Bool
  loginPromise : Option Nat
  loginCalls : Nat
  nextAttempt : Nat
deriving DecidableEq

/-- What the synchronous entry of one caller into ensureConnected did. -/
inductive EnsureOutcome where
  | immediate
  | awaited (attempt : Nat)
  | started (attempt : Nat)
deriving DecidableEq

/-- The synchronous prefix of one `ensureConnected()` call, which under the
cooperative single-threaded runtime executes atomically (there is no await
between the `ready` check, the `loggingIn` check-and-set, and the creation
of `loginPromise`, whose async body synchronously issues `client.login`):
return if ready; await the shared attempt if one is in flight; otherwise
set `loggingIn`, create a fresh shared attempt and issue the login call. -/
def ensureConnectedEnter (s : LoginState) : LoginState × EnsureOutcome :=
  if s.ready then (s, .immediate)
  else if s.loggingIn then
    match s.loginPromise with
    | some a => (s, .awaited a)
    | none => (s, .immediate)
  else
    ({ s with
        loggingIn := true
        loginPromise := some s.nextAttempt
        loginCalls := s.loginCalls + 1
        nextAttempt := s.nextAttempt + 1 },
     .started s.nextAttempt)

/-- The entry prefixes of N concurrent callers, serialized by the cooperative
scheduler in arrival order. -/
def ensureConnectedEnterN : Nat → LoginState → LoginState × List EnsureOutcome
  | 0, s => (s, [])
  | n + 1, s =>
    let p := ensureConnectedEnter s
    let q := ensureConnectedEnterN n p.1
    (q.1, p.2 :: q.2)

-- =========================================================================
-- Per-request view of ensureConnected, and the send path (lines 307-334)
-- =========================================================================

/-- The per-request `await this.ensureConnected()`: a no-op when ready,
otherwise the outcome of a fresh attempt; success flips `ready` (the ready
event handler), failure leaves the state disconnected. -/
def ensureConnectedRun (st : SrvState) (w : World) : Except String Unit × SrvState :=
  if st.ready then (.ok (), st)
  else
    match w.loginResult with
    | none => (.ok (), { st with ready := true })
    | some e => (.error e, st)

/-- The try-block of the send case: ensureConnected, resolve the channel,
transmit.  Returns the state as mutated up to the point of return or
throw, and the thrown error if any. -/
def sendAttempt (st : SrvState) (w : World) (channel_name : String) :
    SrvState × Option ThrownError :=
  match ensureConnectedRun st w with
  | (.error e, st') => (st', some (.ex e))
  | (.ok _, st') =>
    match getChannelByName st'.ready w.guilds channel_name with
    | .error e => (st', some e)
    | .ok _ =>
      match w.sendErr with
      | some e => (st', some (.ex e))
      | none => (st', none)

/-- `project_name || CONFIG.projectName` then
`projectName ? [projectName] content : content`. -/
def messageContentOf (cfgProject : String) (a : SendArgsP1) : String :=
  let projectName := match a.project_name with
    | some p => if p.isEmpty then cfgProject else p
    | none => cfgProject
  if projectName.isEmpty then a.content else "[" ++ projectName ++ "] " ++ a.content

/-- The fixed prefix and suffix of the queued-notice response text. -/
def queuedNotice (suggestion : String) : String :=
  "⚠️ [QUEUE] メッセージを送信待ちリストに保存しました。\n" ++ suggestion
    ++ "\n(現在、再接続を試みています...)"

/-- The suggestion text of the catch clause: the auth-looking test
`error.message.includes("Token") || error.message.includes("Auth")`
selects between the two human-readable hints. -/
def suggestionFor (e : ThrownError) : String :=
  if strContains (errMessage e) "Token" || strContains (errMessage e) "Auth" then
    "設定をご確認ください。"
  else "接続が不安定なようです。VSCodeウィンドウをリロード(Ctrl+R)すると改善する場合があります。"

/-- part_001 send_message case (lines 307-334): attempt inline delivery;
on any failure append one PendingMessage and answer with the queued
notice, choosing the suggestion by the auth-looking-message test. -/
def sendMessageCase (cfgProject : String) (a : SendArgsP1) (st : SrvState) (w : World) :
    Response × SrvState :=
  let messageContent := messageContentOf cfgProject a
  match sendAttempt st w a.channel_name with
  | (st', none) => (mkText ("✅ Message sent to #" ++ a.channel_name), st')
  | (st', some e) =>
    let st'' := { st' with
      pendingMessages := st'.pendingMessages ++ [⟨a.channel_name, messageContent⟩] }
    (mkText (queuedNotice (suggestionFor e)), st'')

-- =========================================================================
-- flushPendingMessages (part_001 lines 193-210)
-- =========================================================================

/-- The delivery loop over the snapshot: a delivered message is dropped, a
failing one is pushed onto the tail of the live queue.  Returns the final
live queue and the successfully delivered messages in delivery order.
`deliver` abstracts the per-message outcome of resolve-and-send during
this cycle. -/
def drainLoop (deliver : PendingMessage → Bool) :
    List PendingMessage → List PendingMessage → List PendingMessage × List PendingMessage
  | [], live => (live, [])
  | m :: rest, live =>
    if deliver m then
      let p := drainLoop deliver rest live
      (p.1, m :: p.2)
    else
      drainLoop deliver rest (live ++ [m])

/-- flushPendingMessages: early-return on an empty queue, otherwise
snapshot, clear the live queue, and run the delivery loop. -/
def flushPendingMessages (deliver : PendingMessage → Bool) (queue : List PendingMessage) :
    List PendingMessage × List PendingMessage :=
  if queue.isEmpty then (queue, [])
  else drainLoop deliver queue []

/-- The delay note appended to a drained message before transmission. -/
def delayNote : String := "\n\n*(Note: This message was delayed due to connection issues)*"

/-- part_001 read_recent_messages case (lines 283-306). -/
def readCase (args : JObj) (st : SrvState) (w : World) : Except ThrownError Response :=
  match parseReadArgs args with
  | .error es => .error (zodCatch es)
  | .ok a =>
    match getChannelByName st.ready w.guilds a.channel_name with
    | .error e => .error e
    | .ok c => .ok (mkText (readText c.messages a))

/-- part_001 add_reaction case (lines 335-341): resolve channel, fetch the
message by id, react with `emoji || "✅"`. -/
def addReactionCase (args : JObj) (st : SrvState) (w : World) : Except ThrownError Response :=
  match parseReactionArgs args with
  | .error es => .error (zodCatch es)
  | .ok a =>
    match getChannelByName st.ready w.guilds a.channel_name with
    | .error e => .error e
    | .ok c =>
      match c.messages.find? (fun m => m.id == a.message_id) with
      | none => .error (.ex "Unknown Message")
      | some _ =>
        match w.reactErr with
        | some e => .error (.ex e)
        | none =>
          let e := if a.emoji.isEmpty then "✅" else a.emoji
          .ok (mkText ("Added " ++ e ++ " to message " ++ a.message_id))

/-- The part_001 CallTool handler (lines 275-351): every operation except
send first runs `ensureConnected`; send runs its own optimistic path;
unknown names fall through to MethodNotFound; ZodErrors become
InvalidParams. -/
def handleTool (cfgProject : String) (name : String) (args : JObj)
    (st : SrvState) (w : World) : Except ThrownError Response × SrvState :=
  if name = "send_message" then
    match parseSendArgsP1 args with
    | .error es => (.error (zodCatch es), st)
    | .ok a =>
      let p := sendMessageCase cfgProject a st w
      (.ok p.1, p.2)
  else
    match ensureConnectedRun st w with
    | (.error e, st') => (.error (.ex e), st')
    | (.ok _, st') =>
      match name with
      | "read_recent_messages" => (readCase args st' w, st')
      | "add_reaction" => (addReactionCase args st' w, st')
      | _ => (.error (.mcp .methodNotFound ("Unknown tool: " ++ name)), st')

end Part001

namespace IndexTs

/-- The environment of src/index.ts: the ready flag set by the startup
login, the guild cache, the user id of the bot, and the outcomes of the
fallible platform calls (`none` for success). -/
structure World where
  ready : Bool
  guilds : List Guild
  botId : String
  sendErr : Option String
  reactErr : Option String
  removeErr : Option String
  deleteErr : Option String
deriving DecidableEq

/-- A platform side effect issued while handling a request. -/
inductive Effect where
  | fetchedRecent (channel : String) (limit : Int)
  | sent (channel : String) (content : String)
  | reacted (messageId : String) (emoji : String)
  | removedReaction (messageId : String) (emoji : String) (userId : String)
  | deleted (messageId : String)
deriving DecidableEq

/-- src/index.ts getChannelByName (lines 95-110). -/
def getChannelByName (w : World) (name : String) : Except ThrownError Channel :=
  if !w.ready then .error (.mcp .internalError "Discord client is not ready yet.")
  else
    match findChannel w.guilds name with
    | some c => .ok c
    | none =>
      .error (.mcp .invalidParams ("Channel #" ++ name ++ " not found in any guild."))

/-- `emoji || "✅"` on the parsed emoji string. -/
def emojiVal (e : String) : String := if e.isEmpty then "✅" else e

/-- src/index.ts render of one read line (lines 211-221), including the
attachment and reaction suffixes. -/
def renderLine (m : Msg) : String :=
  let time := toString m.createdAt
  let isRead := if (ownCheck m).isSome then "[READ]" else "[NEW]"
  let attachments := String.intercalate ", " m.attachments
  let allReactions := String.intercalate " " (m.reactions.map (fun r => r.name))
  "ID:" ++ m.id ++ " " ++ isRead ++ " [" ++ time ++ "] " ++ m.author ++ ": " ++ m.content
    ++ " " ++ (if attachments.isEmpty then "" else "(Files: " ++ attachments ++ ")")
    ++ " " ++ (if allReactions.isEmpty then "" else "(Reactions: " ++ allReactions ++ ")")

/-- The rendered lines, in output order: map then `.reverse()`. -/
def readLines (msgs : List Msg) (a : ReadArgs) : List String :=
  ((readSelected msgs a).map renderLine).reverse

/-- `formatted or the literal no-messages sentinel` after joining with newlines. -/
def readText (msgs : List Msg) (a : ReadArgs) : String :=
  let j := String.intercalate "\n" (readLines msgs a)
  if j.isEmpty then "No messages found." else j

/-- src/index.ts read_recent_messages case (lines 185-226). -/
def readCase (args : JObj) (w : World) : Except ThrownError Response × List Effect :=
  match parseReadArgs args with
  | .error es => (.error (zodCatch es), [])
  | .ok a =>
    match getChannelByName w a.channel_name with
    | .error e => (.error e, [])
    | .ok c =>
      (.ok (mkText (readText c.messages a)), [.fetchedRecent c.name (readFetchLimit a)])

/-- src/index.ts send_message case (lines 227-234). -/
def sendCase (args : JObj) (w : World) : Except ThrownError Response × List Effect :=
  match parseSendArgsIx args with
  | .error es => (.error (zodCatch es), [])
  | .ok a =>
    match getChannelByName w a.channel_name with
    | .error e => (.error e, [])
    | .ok _ =>
      match w.sendErr with
      | some e => (.error (.ex e), [])
      | none =>
        (.ok (mkText ("Message sent to #" ++ a.channel_name)), [.sent a.channel_name a.content])

/-- src/index.ts add_reaction case (lines 235-243). -/
def addReactionCase (args : JObj) (w : World) : Except ThrownError Response × List Effect :=
  match parseReactionArgs args with
  | .error es => (.error (zodCatch es), [])
  | .ok a =>
    match getChannelByName w a.channel_name with
    | .error e => (.error e, [])
    | .ok c =>
      match c.messages.find? (fun m => m.id == a.message_id) with
      | none => (.error (.ex "Unknown Message"), [])
      | some _ =>
        match w.reactErr with
        | some e => (.error (.ex e), [])
        | none =>
          (.ok (mkText ("Added " ++ emojiVal a.emoji ++ " to message " ++ a.message_id)),
           [.reacted a.message_id (emojiVal a.emoji)])

/-- src/index.ts remove_reaction case (lines 244-259): when the resolved
message carries no reaction with the requested emoji name, answer with a
normal text response and issue no removal call. -/
def removeReactionCase (args : JObj) (w : World) : Except ThrownError Response × List Effect :=
  match parseReactionArgs args with
  | .error es => (.error (zodCatch es), [])
  | .ok a =>
    match getChannelByName w a.channel_name with
    | .error e => (.error e, [])
    | .ok c =>
      match c.messages.find? (fun m => m.id == a.message_id) with
      | none => (.error (.ex "Unknown Message"), [])
      | some msg =>
        match msg.reactions.find? (fun r => r.name == emojiVal a.emoji) with
        | some _ =>
          match w.removeErr with
          | some e => (.error (.ex e), [])
          | none =>
            (.ok (mkText ("Removed " ++ emojiVal a.emoji ++ " from message " ++ a.message_id)),
             [.removedReaction a.message_id (emojiVal a.emoji) w.botId])
        | none =>
          (.ok (mkText ("Reaction " ++ emojiVal a.emoji ++ " not found on message "
            ++ a.message_id)), [])

/-- src/index.ts delete_message case (lines 260-268). -/
def deleteCase (args : JObj) (w : World) : Except ThrownError Response × List Effect :=
  match parseDeleteArgs args with
  | .error es => (.error (zodCatch es), [])
  | .ok a =>
    match getChannelByName w a.channel_name with
    | .error e => (.error e, [])
    | .ok c =>
      match c.messages.find? (fun m => m.id == a.message_id) with
      | none => (.error (.ex "Unknown Message"), [])
      | some _ =>
        match w.deleteErr with
        | some e => (.error (.ex e), [])
        | none => (.ok (mkText ("Deleted message " ++ a.message_id)), [.deleted a.message_id])

/-- The src/index.ts CallTool handler (lines 182-278): route the five tool
names, fail unknown ones with MethodNotFound, convert ZodErrors to
InvalidParams. -/
def handleCallTool (name : String) (args : JObj) (w : World) :
    Except ThrownError Response × List Effect :=
  match name with
  | "read_recent_messages" => readCase args w
  | "send_message" => sendCase args w
  | "add_reaction" => addReactionCase args w
  | "remove_reaction" => removeReactionCase args w
  | "delete_message" => deleteCase args w
  | _ => (.error (.mcp .methodNotFound ("Unknown tool: " ++ name)), [])

/-- The five tool names the dispatcher recognizes. -/
def toolNames : List String :=
  ["read_recent_messages", "send_message", "add_reaction", "remove_reaction", "delete_message"]

/-- Whether a dispatch outcome is a MethodNotFound-class error. -/
def isMethodNotFound : Except ThrownError Response → Bool
  | .error (.mcp .methodNotFound _) => true
  | _ => false

end IndexTs

-- =========================================================================
-- Concrete instances used by counterexamples and witnesses
-- =========================================================================

/-- A 100-deep message store with no reactions, for the concrete filtered
overfetch instance. -/
def c10Msgs : List Msg := List.replicate 100 ⟨"m", 0, "u", "hello", [], []⟩

/-- read args with unread_only active and limit 60 > 50. -/
def c10Args : ReadArgs := ⟨"general", 60, true, none⟩

/-- send_message arguments used by the C2 scenario. -/
def c2Args : JObj := [("channel_name", .str "general"), ("content", .str "hi")]

/-- The disconnected starting state with an empty queue. -/
def c2St : Part001.SrvState := ⟨false, []⟩

/-- A world in which the fresh login, the resolution and the transmission
all succeed. -/
def c2W : Part001.World := ⟨none, [⟨[⟨"general", true, []⟩]⟩], none, none⟩

/-- A world in which the fresh login fails with a token error. -/
def c2qW : Part001.World := ⟨some "Token invalid", [⟨[⟨"general", true, []⟩]⟩], none, none⟩

/-- A ready world whose only guild has only a "general" channel. -/
def c4W : IndexTs.World := ⟨true, [⟨[⟨"general", true, []⟩]⟩], "bot", none, none, none, none⟩

/-- A minimal ready world for the dispatcher witnesses. -/
def c5W : IndexTs.World := ⟨true, [], "bot", none, none, none, none⟩

/-- A three-message newest-first store. -/
def c6Msgs : List Msg :=
  [⟨"3", 3, "u", "c", [], []⟩, ⟨"2", 2, "u", "b", [], []⟩, ⟨"1", 1, "u", "a", [], []⟩]

/-- Unfiltered read args with limit 2. -/
def c6Args : ReadArgs := ⟨"general", 2, false, none⟩

/-- One read message (own ✅) and one unread message. -/
def c7Msgs : List Msg :=
  [⟨"2", 2, "u", "b", [⟨"✅", true⟩], []⟩, ⟨"1", 1, "u", "a", [⟨"🔴", false⟩], []⟩]

/-- unread_only read args. -/
def c7Args : ReadArgs := ⟨"general", 10, true, none⟩

/-- An empty "general" channel. -/
def c8Chan : Channel := ⟨"general", true, []⟩

/-- A ready world containing only c8Chan. -/
def c8W : IndexTs.World := ⟨true, [⟨[c8Chan]⟩], "bot", none, none, none, none⟩

/-- read args: limit 7 with unread_only active. -/
def c8Args : JObj :=
  [("channel_name", .str "general"), ("limit", .num 7), ("unread_only", .bool true)]

/-- A message carrying only a 🔴 reaction of another user. -/
def c9Msg : Msg := ⟨"123", 1, "u", "hello", [⟨"🔴", false⟩], []⟩

/-- The channel holding c9Msg. -/
def c9Chan : Channel := ⟨"general", true, [c9Msg]⟩

/-- A ready world containing only c9Chan. -/
def c9W : IndexTs.World := ⟨true, [⟨[c9Chan]⟩], "bot", none, none, none, none⟩

/-- remove_reaction args targeting message 123 with the default emoji. -/
def c9Args : JObj := [("channel_name", .str "general"), ("message_id", .str "123")]

end DiscordServer

namespace DiscordServer

namespace Part001

theorem ensureConnectedEnterN_awaiting (a : Nat) (s : LoginState)
    (hr : s.ready = false) (hl : s.loggingIn = true) (hp : s.loginPromise = some a) :
    ∀ m : Nat, ensureConnectedEnterN m s = (s, List.replicate m (.awaited a)) := by
  intro m
  induction m with
  | zero => simp [ensureConnectedEnterN]
  | succ k ih =>
    have he : ensureConnectedEnter s = (s, .awaited a) := by
      simp [ensureConnectedEnter, hr, hl, hp]
    simp [ensureConnectedEnterN, he, ih, List.replicate]

/-- C1: for N ≥ 1 concurrent ensureConnected calls entering while the
session is Disconnected, exactly one platform login call is issued: the
first caller starts the shared attempt and every later caller awaits that
same attempt, so a single Connecting transition is in flight. -/
theorem ensureConnected_single_flight (n : Nat) (s : LoginState)
    (hr : s.ready = false) (hl : s.loggingIn = false) (hn : 1 ≤ n) :
    (ensureConnectedEnterN n s).1.loginCalls = s.loginCalls + 1
    ∧ (ensureConnectedEnterN n s).1.loggingIn = true
    ∧ (ensureConnectedEnterN n s).2
        = .started s.nextAttempt :: List.replicate (n - 1) (.awaited s.nextAttempt) := by
  cases n with
  | zero => omega
  | succ m =>
    have he : ensureConnectedEnter s
        = ({ s with
              loggingIn := true
              loginPromise := some s.nextAttempt
              loginCalls := s.loginCalls + 1
              nextAttempt := s.nextAttempt + 1 }, .started s.nextAttempt) := by
      simp [ensureConnectedEnter, hr, hl]
    have hrest := ensureConnectedEnterN_awaiting s.nextAttempt
      ({ s with
          loggingIn := true
          loginPromise := some s.nextAttempt
          loginCalls := s.loginCalls + 1
          nextAttempt := s.nextAttempt + 1 }) hr rfl rfl m
    simp [ensureConnectedEnterN, he, hrest]

theorem drainLoop_spec (deliver : PendingMessage → Bool)
    (s live : List PendingMessage) :
    drainLoop deliver s live
      = (live ++ s.filter (fun m => !deliver m), s.filter deliver) := by
  induction s generalizing live with
  | nil => simp [drainLoop]
  | cons m rest ih =>
    by_cases h : deliver m = true
    · simp [drainLoop, h, ih, List.filter_cons]
    · have h' : deliver m = false := by simpa using h
      simp [drainLoop, h', ih, List.filter_cons, List.append_assoc]

theorem length_filter_partition {α : Type} (p : α → Bool) (l : List α) :
    (l.filter (fun a => !p a)).length + (l.filter p).length = l.length := by
  induction l with
  | nil => rfl
  | cons a t ih =>
    by_cases h : p a = true <;> simp [List.filter_cons, h] <;> omega

/-- C3: a drain cycle delivers the snapshotted messages in original
enqueue order (the delivered sequence is the order-preserving
subsequence of successes), re-appends each failing message to the tail of
the live queue instead of aborting, and ends with exactly the failed
entries, conserving the total count. -/
theorem flushPendingMessages_drain (deliver : PendingMessage → Bool)
    (queue : List PendingMessage) :
    (flushPendingMessages deliver queue).2 = queue.filter deliver
    ∧ (flushPendingMessages deliver queue).1 = queue.filter (fun m => !deliver m)
    ∧ (flushPendingMessages deliver queue).1.length
        + (flushPendingMessages deliver queue).2.length = queue.length := by
  unfold flushPendingMessages
  by_cases hq : queue.isEmpty
  · cases queue with
    | nil => simp
    | cons a t => simp at hq
  · rw [if_neg hq, drainLoop_spec]
    refine ⟨rfl, by simp, ?_⟩
    simpa using length_filter_partition deliver queue

end Part001

end DiscordServer

namespace DiscordServer

-- Helpers for channel resolution

theorem findChannel_eq_none (gs : List Guild) (name : String)
    (h : ∀ g ∈ gs, ∀ c ∈ g.channels, c.name ≠ name ∨ c.textBased = false) :
    findChannel gs name = none := by
  unfold findChannel
  rw [List.findSome?_eq_none_iff]
  intro g hg
  rw [List.find?_eq_none]
  intro c hc
  rcases h g hg c hc with h1 | h1 <;> simp [h1]

theorem getChannelByName_cases (w : IndexTs.World) (name : String) :
    (∃ c, IndexTs.getChannelByName w name = .ok c)
    ∨ IndexTs.getChannelByName w name
        = .error (.mcp .internalError "Discord client is not ready yet.")
    ∨ IndexTs.getChannelByName w name
        = .error (.mcp .invalidParams ("Channel #" ++ name ++ " not found in any guild.")) := by
  unfold IndexTs.getChannelByName
  split
  · right; left; rfl
  · split
    · left; exact ⟨_, rfl⟩
    · right; right; rfl

-- Sublist structure of the read pipeline

theorem readFiltered_sublist (a : ReadArgs) (l : List Msg) : List.Sublist (readFiltered a l) l := by
  unfold readFiltered
  by_cases h1 : jsTruthy a.reaction_filter <;> by_cases h2 : a.unread_only <;>
    simp [h1, h2]

theorem sliceTo_sublist {α : Type} (l : List α) (n : Int) : List.Sublist (sliceTo l n) l :=
  List.take_sublist _ _

theorem readSelected_sublist (msgs : List Msg) (a : ReadArgs) :
    List.Sublist (readSelected msgs a) msgs :=
  ((sliceTo_sublist _ _).trans (readFiltered_sublist _ _)).trans (List.take_sublist _ _)

end DiscordServer

namespace DiscordServer

-- C2 machinery

theorem sendAttempt_queue_unchanged (st : Part001.SrvState) (w : Part001.World)
    (cn : String) :
    (Part001.sendAttempt st w cn).1.pendingMessages = st.pendingMessages := by
  unfold Part001.sendAttempt Part001.ensureConnectedRun
  by_cases h : st.ready <;> simp [h]
  · split
    · rfl
    · cases w.sendErr <;> rfl
  · cases w.loginResult <;> simp
    · split
      · rfl
      · cases w.sendErr <;> rfl

-- C2 (amended) theorem

/-- C2 (amended): a schema-valid send_message never raises: when the
optimistic connect-resolve-transmit path fails at any point, exactly one
PendingMessage is appended and the response is the queued notice; when the
path succeeds the message is delivered live with no enqueue. -/
theorem send_message_recovers_failures (cfg : String) (args : JObj) (a : SendArgsP1)
    (st : Part001.SrvState) (w : Part001.World)
    (hp : parseSendArgsP1 args = .ok a) :
    ((Part001.handleTool cfg "send_message" args st w).1.isOk = true)
    ∧ ((Part001.sendAttempt st w a.channel_name).2.isSome = true →
        (Part001.handleTool cfg "send_message" args st w).2.pendingMessages
          = st.pendingMessages ++ [⟨a.channel_name, Part001.messageContentOf cfg a⟩]
        ∧ ∃ sug, (Part001.handleTool cfg "send_message" args st w).1
            = .ok (mkText (Part001.queuedNotice sug)))
    ∧ ((Part001.sendAttempt st w a.channel_name).2.isSome = false →
        (Part001.handleTool cfg "send_message" args st w).2.pendingMessages
          = st.pendingMessages
        ∧ (Part001.handleTool cfg "send_message" args st w).1
            = .ok (mkText ("✅ Message sent to #" ++ a.channel_name))) := by
  have hq := sendAttempt_queue_unchanged st w a.channel_name
  unfold Part001.handleTool
  rw [if_pos rfl, hp]
  unfold Part001.sendMessageCase
  cases hs : Part001.sendAttempt st w a.channel_name with
  | mk st' oe =>
    rw [hs] at hq
    simp at hq
    cases oe with
    | none =>
      simp only [hs]
      simp [hq, Except.isOk, Except.toBool]
    | some e =>
      simp only [hs]
      simp [hq, Except.isOk, Except.toBool]
      exact ⟨Part001.suggestionFor e, rfl⟩

end DiscordServer

namespace DiscordServer

-- C6: ordering

/-- C6: when the platform delivers strictly newest-first, the message
sequence underlying the rendered output (truncate to `limit`, then
reverse) is strictly oldest-first, and the rendered lines are exactly its
per-message renders. -/
theorem read_output_oldest_first (msgs : List Msg) (a : ReadArgs)
    (hdesc : msgs.Pairwise (fun x y => y.createdAt < x.createdAt)) :
    ((readSelected msgs a).reverse).Pairwise (fun x y => x.createdAt < y.createdAt)
    ∧ Part001.readLines msgs a = ((readSelected msgs a).reverse).map Part001.renderLine := by
  constructor
  · rw [List.pairwise_reverse]
    exact List.Pairwise.sublist (readSelected_sublist msgs a) hdesc
  · unfold Part001.readLines
    rw [List.map_reverse]

-- C7: unread filter

/-- C7: with unread_only = true, no selected message carries the own ✅
reaction of the bot: its own-check lookup is empty. -/
theorem unread_only_excludes_read (msgs : List Msg) (a : ReadArgs)
    (hu : a.unread_only = true) :
    ∀ m ∈ (readSelected msgs a).reverse, ownCheck m = none := by
  intro m hm
  rw [List.mem_reverse] at hm
  unfold readSelected sliceTo at hm
  have hm2 : m ∈ readFiltered a (msgs.take (readFetchLimit a).toNat) :=
    List.mem_of_mem_take hm
  simp only [readFiltered, hu, if_true] at hm2
  have h3 := (List.mem_filter.mp hm2).2
  simpa [Option.isNone_iff_eq_none] using h3

-- C8: fetch limit

/-- C8: the read path requests exactly min(limit, 50) raw messages with no
filter active, and exactly min(limit * 3, 100) when unread_only or a
truthy reaction_filter is active. -/
theorem read_fetch_exact (args : JObj) (w : IndexTs.World) (a : ReadArgs) (c : Channel)
    (hp : parseReadArgs args = .ok a)
    (hc : IndexTs.getChannelByName w a.channel_name = .ok c) :
    (IndexTs.readCase args w).2 = [.fetchedRecent c.name (readFetchLimit a)]
    ∧ ((a.unread_only || jsTruthy a.reaction_filter) = false →
        readFetchLimit a = min a.limit 50)
    ∧ ((a.unread_only || jsTruthy a.reaction_filter) = true →
        readFetchLimit a = min (a.limit * 3) 100) := by
  refine ⟨?_, ?_, ?_⟩
  · simp [IndexTs.readCase, hp, hc]
  · intro h; simp [readFetchLimit, h]
  · intro h; simp [readFetchLimit, h]

-- C9: remove_reaction with absent reaction

/-- C9: a remove_reaction whose resolved message lacks the requested emoji
returns a normal text response naming the miss, raises nothing and issues
no platform effect. -/
theorem remove_reaction_absent (args : JObj) (w : IndexTs.World) (a : ReactionArgs)
    (c : Channel) (msg : Msg)
    (hp : parseReactionArgs args = .ok a)
    (hc : IndexTs.getChannelByName w a.channel_name = .ok c)
    (hm : c.messages.find? (fun m => m.id == a.message_id) = some msg)
    (hr : msg.reactions.find? (fun r => r.name == IndexTs.emojiVal a.emoji) = none) :
    IndexTs.handleCallTool "remove_reaction" args w
      = (.ok (mkText ("Reaction " ++ IndexTs.emojiVal a.emoji ++ " not found on message "
          ++ a.message_id)), []) := by
  show IndexTs.removeReactionCase args w = _
  simp [IndexTs.removeReactionCase, hp, hc, hm, hr]

end DiscordServer

namespace DiscordServer

-- C4: channel resolution NotFound

/-- C4: with a Ready session and no text-capable channel of the requested
name in any joined guild, both resolvers fail with the channel-not-found
error (the NotFound class of the taxonomy), whose message embeds the
requested name. -/
theorem channel_resolution_notFound (name : String) (w : IndexTs.World)
    (hready : w.ready = true)
    (habsent : ∀ g ∈ w.guilds, ∀ c ∈ g.channels, c.name ≠ name ∨ c.textBased = false) :
    Part001.getChannelByName w.ready w.guilds name
      = .error (.mcp .invalidParams ("Channel #" ++ name ++ " not found."))
    ∧ IndexTs.getChannelByName w name
      = .error (.mcp .invalidParams ("Channel #" ++ name ++ " not found in any guild."))
    ∧ (∃ pre post, "Channel #" ++ name ++ " not found." = pre ++ name ++ post)
    ∧ (∃ pre post, "Channel #" ++ name ++ " not found in any guild." = pre ++ name ++ post) := by
  have hnone := findChannel_eq_none w.guilds name habsent
  refine ⟨?_, ?_, ⟨"Channel #", " not found.", rfl⟩,
    ⟨"Channel #", " not found in any guild.", rfl⟩⟩
  · simp [Part001.getChannelByName, hready, hnone]
  · simp [IndexTs.getChannelByName, hready, hnone]

-- C5 helpers: no case of the five produces MethodNotFound

theorem readCase_not_mnf (args : JObj) (w : IndexTs.World) :
    IndexTs.isMethodNotFound (IndexTs.readCase args w).1 = false := by
  unfold IndexTs.readCase
  cases hp : parseReadArgs args with
  | error es => simp [IndexTs.isMethodNotFound, zodCatch]
  | ok a =>
    rcases getChannelByName_cases w a.channel_name with ⟨c, hc⟩ | hc | hc <;>
      simp [hc, IndexTs.isMethodNotFound]

theorem sendCase_not_mnf (args : JObj) (w : IndexTs.World) :
    IndexTs.isMethodNotFound (IndexTs.sendCase args w).1 = false := by
  unfold IndexTs.sendCase
  cases hp : parseSendArgsIx args with
  | error es => simp [IndexTs.isMethodNotFound, zodCatch]
  | ok a =>
    rcases getChannelByName_cases w a.channel_name with ⟨c, hc⟩ | hc | hc <;>
      simp [hc, IndexTs.isMethodNotFound] <;>
      cases w.sendErr <;> simp [IndexTs.isMethodNotFound]

theorem addReactionCase_not_mnf (args : JObj) (w : IndexTs.World) :
    IndexTs.isMethodNotFound (IndexTs.addReactionCase args w).1 = false := by
  unfold IndexTs.addReactionCase
  cases hp : parseReactionArgs args with
  | error es => simp [IndexTs.isMethodNotFound, zodCatch]
  | ok a =>
    rcases getChannelByName_cases w a.channel_name with ⟨c, hc⟩ | hc | hc <;>
      simp only [hc] <;> try simp [IndexTs.isMethodNotFound]
    cases hm : c.messages.find? (fun m => m.id == a.message_id) with
    | none => simp [hm, IndexTs.isMethodNotFound]
    | some msg =>
      cases he : w.reactErr <;> simp [hm, he, IndexTs.isMethodNotFound]

theorem removeReactionCase_not_mnf (args : JObj) (w : IndexTs.World) :
    IndexTs.isMethodNotFound (IndexTs.removeReactionCase args w).1 = false := by
  unfold IndexTs.removeReactionCase
  cases hp : parseReactionArgs args with
  | error es => simp [IndexTs.isMethodNotFound, zodCatch]
  | ok a =>
    rcases getChannelByName_cases w a.channel_name with ⟨c, hc⟩ | hc | hc <;>
      simp only [hc] <;> try simp [IndexTs.isMethodNotFound]
    cases hm : c.messages.find? (fun m => m.id == a.message_id) with
    | none => simp [hm, IndexTs.isMethodNotFound]
    | some msg =>
      cases hr : msg.reactions.find? (fun r => r.name == IndexTs.emojiVal a.emoji) with
      | none => simp [hm, hr, IndexTs.isMethodNotFound]
      | some r =>
        cases he : w.removeErr <;> simp [hm, hr, he, IndexTs.isMethodNotFound]

theorem deleteCase_not_mnf (args : JObj) (w : IndexTs.World) :
    IndexTs.isMethodNotFound (IndexTs.deleteCase args w).1 = false := by
  unfold IndexTs.deleteCase
  cases hp : parseDeleteArgs args with
  | error es => simp [IndexTs.isMethodNotFound, zodCatch]
  | ok a =>
    rcases getChannelByName_cases w a.channel_name with ⟨c, hc⟩ | hc | hc <;>
      simp only [hc] <;> try simp [IndexTs.isMethodNotFound]
    cases hm : c.messages.find? (fun m => m.id == a.message_id) with
    | none => simp [hm, IndexTs.isMethodNotFound]
    | some msg =>
      cases he : w.deleteErr <;> simp [hm, he, IndexTs.isMethodNotFound]

end DiscordServer

namespace DiscordServer

theorem readCase_ok_shape (args : JObj) (w : IndexTs.World) :
    ∀ r, (IndexTs.readCase args w).1 = .ok r → ∃ t, r = mkText t := by
  unfold IndexTs.readCase
  cases hp : parseReadArgs args with
  | error es => simp
  | ok a =>
    rcases getChannelByName_cases w a.channel_name with ⟨c, hc⟩ | hc | hc <;>
      simp only [hc] <;> simp

theorem sendCase_ok_shape (args : JObj) (w : IndexTs.World) :
    ∀ r, (IndexTs.sendCase args w).1 = .ok r → ∃ t, r = mkText t := by
  unfold IndexTs.sendCase
  cases hp : parseSendArgsIx args with
  | error es => simp
  | ok a =>
    rcases getChannelByName_cases w a.channel_name with ⟨c, hc⟩ | hc | hc <;>
      simp only [hc] <;> try simp
    cases he : w.sendErr <;> simp [he]

theorem addReactionCase_ok_shape (args : JObj) (w : IndexTs.World) :
    ∀ r, (IndexTs.addReactionCase args w).1 = .ok r → ∃ t, r = mkText t := by
  unfold IndexTs.addReactionCase
  cases hp : parseReactionArgs args with
  | error es => simp
  | ok a =>
    rcases getChannelByName_cases w a.channel_name with ⟨c, hc⟩ | hc | hc <;>
      simp only [hc] <;> try simp
    cases hm : c.messages.find? (fun m => m.id == a.message_id) with
    | none => simp [hm]
    | some msg => cases he : w.reactErr <;> simp [hm, he]

theorem removeReactionCase_ok_shape (args : JObj) (w : IndexTs.World) :
    ∀ r, (IndexTs.removeReactionCase args w).1 = .ok r → ∃ t, r = mkText t := by
  unfold IndexTs.removeReactionCase
  cases hp : parseReactionArgs args with
  | error es => simp
  | ok a =>
    rcases getChannelByName_cases w a.channel_name with ⟨c, hc⟩ | hc | hc <;>
      simp only [hc] <;> try simp
    cases hm : c.messages.find? (fun m => m.id == a.message_id) with
    | none => simp [hm]
    | some msg =>
      cases hr : msg.reactions.find? (fun r => r.name == IndexTs.emojiVal a.emoji) with
      | none => simp [hm, hr]
      | some r => cases he : w.removeErr <;> simp [hm, hr, he]

theorem deleteCase_ok_shape (args : JObj) (w : IndexTs.World) :
    ∀ r, (IndexTs.deleteCase args w).1 = .ok r → ∃ t, r = mkText t := by
  unfold IndexTs.deleteCase
  cases hp : parseDeleteArgs args with
  | error es => simp
  | ok a =>
    rcases getChannelByName_cases w a.channel_name with ⟨c, hc⟩ | hc | hc <;>
      simp only [hc] <;> try simp
    cases hm : c.messages.find? (fun m => m.id == a.message_id) with
    | none => simp [hm]
    | some msg => cases he : w.deleteErr <;> simp [hm, he]

/-- C5: the dispatcher recognizes exactly the five inbound operations:
none of the five can produce a MethodNotFound-class outcome, every name
outside the set fails with MethodNotFound naming the unknown tool, and
every successful outcome is a single text block. -/
theorem dispatcher_routes_five_ops :
    (∀ name args w, name ∈ IndexTs.toolNames →
      IndexTs.isMethodNotFound (IndexTs.handleCallTool name args w).1 = false)
    ∧ (∀ name args w, name ∉ IndexTs.toolNames →
      (IndexTs.handleCallTool name args w).1
        = .error (.mcp .methodNotFound ("Unknown tool: " ++ name)))
    ∧ (∀ name args w r, (IndexTs.handleCallTool name args w).1 = .ok r →
      ∃ t, r = mkText t) := by
  refine ⟨?_, ?_, ?_⟩
  · intro name args w h
    simp only [IndexTs.toolNames, List.mem_cons, List.mem_singleton] at h
    rcases h with rfl | rfl | rfl | rfl | rfl | h
    · exact readCase_not_mnf args w
    · exact sendCase_not_mnf args w
    · exact addReactionCase_not_mnf args w
    · exact removeReactionCase_not_mnf args w
    · exact deleteCase_not_mnf args w
    · simp at h
  · intro name args w h
    simp only [IndexTs.toolNames, List.mem_cons, List.mem_singleton, not_or] at h
    obtain ⟨h1, h2, h3, h4, h5, -⟩ := h
    unfold IndexTs.handleCallTool
    split <;> simp_all
  · intro name args w r h
    unfold IndexTs.handleCallTool at h
    split at h
    · exact readCase_ok_shape args w r h
    · exact sendCase_ok_shape args w r h
    · exact addReactionCase_ok_shape args w r h
    · exact removeReactionCase_ok_shape args w r h
    · exact deleteCase_ok_shape args w r h
    · exact absurd h (by simp)

end DiscordServer

namespace DiscordServer

/-- C10: with a filter active, the post-filter truncation keeps up to
`limit` messages (also bounded by the overfetch cap min(limit * 3, 100)),
and the cap of 50 does not apply: the concrete instance with limit 60
returns 60 messages. -/
theorem filtered_read_cap (msgs : List Msg) (a : ReadArgs)
    (hact : (a.unread_only || jsTruthy a.reaction_filter) = true)
    (hl : 50 < a.limit) :
    (readSelected msgs a).length ≤ a.limit.toNat
    ∧ (readSelected msgs a).length ≤ (min (a.limit * 3) 100).toNat
    ∧ (readSelected c10Msgs c10Args).length = 60
    ∧ 50 < (readSelected c10Msgs c10Args).length := by
  refine ⟨?_, ?_, by decide, by decide⟩
  · unfold readSelected sliceTo
    rw [if_neg (by omega)]
    exact List.length_take_le _ _
  · calc (readSelected msgs a).length
        ≤ (readFiltered a (msgs.take (readFetchLimit a).toNat)).length :=
          (sliceTo_sublist _ _).length_le
      _ ≤ (msgs.take (readFetchLimit a).toNat).length :=
          (readFiltered_sublist _ _).length_le
      _ ≤ (readFetchLimit a).toNat := by
          rw [List.length_take]; exact min_le_left _ _
      _ = (min (a.limit * 3) 100).toNat := by simp [readFetchLimit, hact]

/-- Witness for C10 at the concrete 100-message store and limit 60. -/
theorem filtered_read_cap_witness :
    (c10Args.unread_only || jsTruthy c10Args.reaction_filter) = true
    ∧ 50 < c10Args.limit
    ∧ (readSelected c10Msgs c10Args).length ≤ c10Args.limit.toNat :=
  ⟨by decide, by decide, (filtered_read_cap c10Msgs c10Args (by decide) (by decide)).1⟩

/-- C2 counterexample: a send attempted while Disconnected whose
optimistic login, resolution and transmission succeed returns the live
sent response and appends no PendingMessage, contradicting the claim that
such a send always queues exactly one message and returns a queued
notice. -/
theorem send_message_disconnected_cex :
    c2St.ready = false
    ∧ (Part001.handleTool "mcp-servers" "send_message" c2Args c2St c2W).1
        = .ok (mkText "✅ Message sent to #general")
    ∧ (Part001.handleTool "mcp-servers" "send_message" c2Args c2St c2W).2.pendingMessages = []
    ∧ ¬ ((Part001.handleTool "mcp-servers" "send_message" c2Args c2St c2W).2.pendingMessages.length = 1) := by
  decide

/-- Witness for the amended C2 theorem at a failing login. -/
theorem send_message_recovers_failures_witness :
    parseSendArgsP1 c2Args = .ok ⟨"general", "hi", none⟩
    ∧ (Part001.handleTool "mcp-servers" "send_message" c2Args c2St c2qW).1.isOk = true :=
  ⟨by decide,
   (send_message_recovers_failures "mcp-servers" c2Args ⟨"general", "hi", none⟩ c2St c2qW
     (by decide)).1⟩

/-- Witness for C1: three concurrent callers entering from the pristine
disconnected state issue exactly one login call and share attempt 0. -/
theorem ensureConnected_single_flight_witness :
    (Part001.ensureConnectedEnterN 3 ⟨false, false, none, 0, 0⟩).1.loginCalls = 0 + 1
    ∧ (Part001.ensureConnectedEnterN 3 ⟨false, false, none, 0, 0⟩).1.loggingIn = true
    ∧ (Part001.ensureConnectedEnterN 3 ⟨false, false, none, 0, 0⟩).2
        = .started 0 :: List.replicate 2 (.awaited 0) :=
  Part001.ensureConnected_single_flight 3 ⟨false, false, none, 0, 0⟩ rfl rfl (by decide)

/-- Witness for C4: resolving "x" against a world without it. -/
theorem channel_resolution_notFound_witness :
    c4W.ready = true
    ∧ Part001.getChannelByName c4W.ready c4W.guilds "x"
        = .error (.mcp .invalidParams ("Channel #" ++ "x" ++ " not found.")) :=
  ⟨rfl, (channel_resolution_notFound "x" c4W rfl (by decide)).1⟩

/-- Witness for C5: a known operation is never MethodNotFound and an
unknown one is. -/
theorem dispatcher_routes_five_ops_witness :
    IndexTs.isMethodNotFound (IndexTs.handleCallTool "delete_message" [] c5W).1 = false
    ∧ (IndexTs.handleCallTool "frobnicate" [] c5W).1
        = .error (.mcp .methodNotFound ("Unknown tool: " ++ "frobnicate")) :=
  ⟨dispatcher_routes_five_ops.1 "delete_message" [] c5W (by decide),
   dispatcher_routes_five_ops.2.1 "frobnicate" [] c5W (by decide)⟩

/-- Witness for C6 at a concrete newest-first store. -/
theorem read_output_oldest_first_witness :
    c6Msgs.Pairwise (fun x y => y.createdAt < x.createdAt)
    ∧ (((readSelected c6Msgs c6Args).reverse).Pairwise (fun x y => x.createdAt < y.createdAt)
      ∧ Part001.readLines c6Msgs c6Args
          = ((readSelected c6Msgs c6Args).reverse).map Part001.renderLine) :=
  ⟨by decide, read_output_oldest_first c6Msgs c6Args (by decide)⟩

/-- Witness for C7: the unread message survives and carries no own ✅. -/
theorem unread_only_excludes_read_witness :
    c7Args.unread_only = true
    ∧ (⟨"1", 1, "u", "a", [⟨"🔴", false⟩], []⟩ : Msg) ∈ (readSelected c7Msgs c7Args).reverse
    ∧ ownCheck ⟨"1", 1, "u", "a", [⟨"🔴", false⟩], []⟩ = none :=
  ⟨rfl, by decide,
   unread_only_excludes_read c7Msgs c7Args rfl _ (by decide)⟩

/-- Witness for C8 at limit 7 with the unread filter active. -/
theorem read_fetch_exact_witness :
    parseReadArgs c8Args = .ok ⟨"general", 7, true, none⟩
    ∧ IndexTs.getChannelByName c8W "general" = .ok c8Chan
    ∧ (IndexTs.readCase c8Args c8W).2
        = [.fetchedRecent c8Chan.name (readFetchLimit ⟨"general", 7, true, none⟩)] :=
  ⟨by decide, by decide,
   (read_fetch_exact c8Args c8W ⟨"general", 7, true, none⟩ c8Chan (by decide) (by decide)).1⟩

/-- Witness for C9: removing the absent ✅ answers with the not-found text
and no effect. -/
theorem remove_reaction_absent_witness :
    parseReactionArgs c9Args = .ok ⟨"general", "123", "✅"⟩
    ∧ IndexTs.handleCallTool "remove_reaction" c9Args c9W
        = (.ok (mkText ("Reaction " ++ IndexTs.emojiVal "✅" ++ " not found on message "
            ++ "123")), []) :=
  ⟨by decide,
   remove_reaction_absent c9Args c9W ⟨"general", "123", "✅"⟩ c9Chan c9Msg
     (by decide) (by decide) (by decide) (by decide)⟩

end DiscordServer
